import Mathlib

/-!
Shallow embedding of the match lifecycle, matchmaking, and score
reconciliation engine of the bir repository (src/match_manager.py),
together with theorems checking the specification claims against it.

The SQLite store is modelled as explicit lists of rows; every engine
operation is a pure function from a database value (plus the current
time and the function arguments) to a new database value and a result.
Wall-clock times are integers (seconds); a timedelta of m minutes is
60 * m seconds.  Python code paths that would raise an exception
(subscripting a missing row) are modelled by Option-valued functions
returning none.  The floating point Elo arithmetic of the source is
modelled over the real numbers.
-/

namespace Bir

/-- Team status column of the teams table: one of the four strings
no_match, available, match_pending, match_active. -/
inductive TeamStatus
  | noMatch
  | available
  | matchPending
  | matchActive
deriving DecidableEq

/-- Match status column of the matches table: one of the five strings
pending, ready_check, active, finished, completed. -/
inductive MatchStatus
  | pending
  | readyCheck
  | active
  | finished
  | completed
deriving DecidableEq

/-- A row of the teams table (the columns the engine reads or writes). -/
structure Team where
  id : Nat
  status : TeamStatus
  elo : Int
  plays : Int
  wins : Int
  losses : Int
deriving DecidableEq

/-- A row of the matches table (the columns the engine reads or writes). -/
structure MatchRow where
  id : Nat
  team1_id : Nat
  team2_id : Nat
  table_id : Option Nat
  status : MatchStatus
  scheduled_start : Option Int
  timer_start : Option Int
  team1_ready : Bool
  team2_ready : Bool
  team1_done : Bool
  team2_done : Bool
  score1 : Option Int
  score2 : Option Int
  winner_id : Option Nat
  end_time : Option Int
  mismatch_flag : Bool
  notification_sent : Bool
deriving DecidableEq

/-- A row of the match_submissions table. -/
structure Submission where
  match_id : Nat
  team_id : Nat
  score_for : Int
  score_against : Int
deriving DecidableEq

/-- A row of the elo_history table. -/
structure EloEntry where
  team_id : Nat
  elo : Int
deriving DecidableEq

/-- The database state: the tables the engine touches.  nextMatchId
models the SQLite rowid counter returned by lastrowid on insert. -/
structure DB where
  teams : List Team
  matchRows : List MatchRow
  tables : List Nat
  submissions : List Submission
  elo_history : List EloEntry
  nextMatchId : Nat
deriving DecidableEq

/-- MATCH_DURATION_MINUTES = 12 (src/match_manager.py line 5). -/
def MATCH_DURATION_MINUTES : Int := 12

/-- BUFFER_MINUTES = 3 (src/match_manager.py line 6). -/
def BUFFER_MINUTES : Int := 3

/-- READY_CHECK_TIMEOUT_MINUTES = 5 (src/match_manager.py line 7). -/
def READY_CHECK_TIMEOUT_MINUTES : Int := 5

/-- timedelta(minutes = m) in seconds. -/
def minutes (m : Int) : Int := 60 * m

/-- Membership test for the SQL status set (pending, ready_check,
active, finished) used by the scheduling and state queries. -/
def isOpenStatus : MatchStatus → Bool
  | .pending => true
  | .readyCheck => true
  | .active => true
  | .finished => true
  | .completed => false

/-- Membership test for the SQL status set (ready_check, active,
finished) used by the table-busy check of update_match_progress. -/
def isBusyStatus : MatchStatus → Bool
  | .readyCheck => true
  | .active => true
  | .finished => true
  | _ => false

/-- SQL UPDATE matches ... WHERE id = mid: apply f to every row whose
id matches. -/
def updateMatches (ms : List MatchRow) (mid : Nat) (f : MatchRow → MatchRow) :
    List MatchRow :=
  ms.map fun m => if m.id = mid then f m else m

/-- SQL UPDATE teams ... WHERE p(id): apply f to every row whose id
satisfies p. -/
def updateTeams (ts : List Team) (p : Nat → Bool) (f : Team → Team) :
    List Team :=
  ts.map fun t => if p t.id then f t else t

/-- SQL SELECT * FROM matches WHERE id = mid, fetchone. -/
def findMatchL (ms : List MatchRow) (mid : Nat) : Option MatchRow :=
  ms.find? fun m => decide (m.id = mid)

/-- SQL SELECT * FROM teams WHERE id = tid, fetchone. -/
def findTeamL (ts : List Team) (tid : Nat) : Option Team :=
  ts.find? fun t => decide (t.id = tid)

/-- SQL EXISTS check used by the inner joins of the state query. -/
def teamExists (ts : List Team) (tid : Nat) : Bool :=
  ts.any fun t => decide (t.id = tid)

/-- Table-busy query of update_match_progress (lines 42-45): is there a
match on the given table whose status is ready_check, active or
finished?  A NULL table id matches no row (SQL three-valued logic). -/
def pass1Busy (ms : List MatchRow) (tbl : Option Nat) : Bool :=
  match tbl with
  | none => false
  | some t => ms.any fun m => decide (m.table_id = some t) && isBusyStatus m.status

/-- One iteration of the pending loop of update_match_progress (lines
34-48): if now is within 3 minutes of the scheduled start and the
table is free in the current database, promote the row to ready_check. -/
def pass1Step (now : Int) (db : DB) (m : MatchRow) : DB :=
  match m.scheduled_start with
  | none => db
  | some ss =>
    if now ≥ ss - minutes 3 then
      if pass1Busy db.matchRows m.table_id then db
      else { db with matchRows :=
        updateMatches db.matchRows m.id fun r => { r with status := .readyCheck } }
    else db

/-- One iteration of the ready_check loop of update_match_progress
(lines 56-71): past the forced-start deadline, set the match active
with timer_start = now and both teams to match_active.  A NULL
scheduled_start raises a TypeError in the source, modelled as none. -/
def pass2Step (now : Int) (db : DB) (m : MatchRow) : Option DB :=
  match m.scheduled_start with
  | none => none
  | some ss =>
    if now > ss + minutes READY_CHECK_TIMEOUT_MINUTES then
      some { db with
        matchRows := updateMatches db.matchRows m.id fun r =>
          { r with status := .active, timer_start := some now },
        teams := updateTeams db.teams
          (fun tid => decide (tid = m.team1_id) || decide (tid = m.team2_id))
          (fun t => { t with status := .matchActive }) }
    else some db

/-- MatchManager.update_match_progress (lines 18-75).  Both loops run
over a snapshot of the rows selected at the start of the loop, while
reads inside the loop body see earlier updates of the same call; an
exception aborts the call before the single commit, so none means the
database is unchanged. -/
def update_match_progress (db : DB) (now : Int) : Option DB :=
  let pendingSnap := db.matchRows.filter fun m =>
    decide (m.status = .pending) && m.scheduled_start.isSome
  let db1 := pendingSnap.foldl (pass1Step now) db
  let readySnap := db1.matchRows.filter fun m => decide (m.status = .readyCheck)
  readySnap.foldlM (pass2Step now) db1

/-- Result of MatchManager.get_user_state: the reported state string
and the joined match row, if any (the joined team and table name
columns are presentation only and are not modelled). -/
structure UserState where
  state : TeamStatus
  matchRow : Option MatchRow
deriving DecidableEq

/-- Candidate filter of the match query of get_user_state (lines
92-105): the match references the user, has an open status, and both
inner joins on the teams table succeed. -/
def stateCandidates (db : DB) (uid : Nat) : List MatchRow :=
  db.matchRows.filter fun m =>
    (decide (m.team1_id = uid) || decide (m.team2_id = uid)) &&
    isOpenStatus m.status &&
    teamExists db.teams m.team1_id && teamExists db.teams m.team2_id

/-- ORDER BY scheduled_start ASC LIMIT 1 over the candidate rows; NULL
sorts before every value and the first row wins ties. -/
def schedLt : Option Int → Option Int → Bool
  | none, none => false
  | none, some _ => true
  | some _, none => false
  | some a, some b => decide (a < b)

/-- Fold picking the first row with the least scheduled_start. -/
def pickEarliest (l : List MatchRow) : Option MatchRow :=
  l.foldl
    (fun acc m =>
      match acc with
      | none => some m
      | some a => if schedLt m.scheduled_start a.scheduled_start then some m else some a)
    none

/-- MatchManager.get_user_state (lines 77-120): run the deadline
evaluator, read the team status, and when it claims an in-match state
look up the backing match row, self-healing to no_match if absent. -/
def get_user_state (db : DB) (uid : Nat) (now : Int) : Option (DB × UserState) :=
  match update_match_progress db now with
  | none => none
  | some db1 =>
    let state := match findTeamL db1.teams uid with
      | some t => t.status
      | none => TeamStatus.noMatch
    if state = TeamStatus.matchPending ∨ state = TeamStatus.matchActive then
      match pickEarliest (stateCandidates db1 uid) with
      | some m => some (db1, ⟨state, some m⟩)
      | none =>
        let healedTeams := updateTeams db1.teams (fun tid => decide (tid = uid))
          (fun t => { t with status := .noMatch })
        some ({ db1 with teams := healedTeams }, ⟨TeamStatus.noMatch, none⟩)
    else
      some (db1, ⟨state, none⟩)

/-- ORDER BY scheduled_start DESC LIMIT 1 over the open matches with a
non-NULL scheduled_start (lines 154-160), i.e. their maximum. -/
def lastScheduled (ms : List MatchRow) : Option Int :=
  (ms.filterMap fun m =>
    if isOpenStatus m.status then m.scheduled_start else none).max?

/-- MatchManager.try_create_match (lines 122-183).  The ORDER BY
RANDOM() choice of an opponent among the eligible rows is modelled by
the extra argument pick, reduced modulo the number of candidates. -/
def try_create_match (db : DB) (uid : Nat) (now : Int) (pick : Nat) :
    DB × Option Nat :=
  let eligible := db.teams.filter fun t =>
    decide (t.status = .available) && decide (¬ t.id = uid)
  match eligible.get? (pick % eligible.length) with
  | none => (db, none)
  | some opp =>
    let teams1 := updateTeams db.teams (fun tid => decide (tid = opp.id))
      (fun t => { t with status := .matchPending })
    let teams2 := updateTeams teams1 (fun tid => decide (tid = uid))
      (fun t => { t with status := .matchPending })
    let table_id := db.tables.head?
    let sched := match lastScheduled db.matchRows with
      | some s => s + minutes MATCH_DURATION_MINUTES + minutes BUFFER_MINUTES
      | none => now
    let newRow : MatchRow :=
      { id := db.nextMatchId, team1_id := uid, team2_id := opp.id,
        table_id := table_id, status := .pending,
        scheduled_start := some sched, timer_start := none,
        team1_ready := false, team2_ready := false,
        team1_done := false, team2_done := false,
        score1 := none, score2 := none, winner_id := none,
        end_time := none, mismatch_flag := false, notification_sent := false }
    let db2 : DB :=
      { db with teams := teams2, matchRows := db.matchRows ++ [newRow],
                nextMatchId := db.nextMatchId + 1 }
    (db2, some db.nextMatchId)

/-- MatchManager.set_ready (lines 185-210): set the ready flag of the
calling side, then promote the match to active when both flags are set
and the timer has not started. -/
def set_ready (db : DB) (mid uid : Nat) (now : Int) : DB × Bool :=
  match findMatchL db.matchRows mid with
  | none => (db, false)
  | some m =>
    let matches1 :=
      if uid = m.team1_id then
        updateMatches db.matchRows mid fun r => { r with team1_ready := true }
      else
        updateMatches db.matchRows mid fun r => { r with team2_ready := true }
    let db1 := { db with matchRows := matches1 }
    match findMatchL db1.matchRows mid with
    | none => (db1, true)
    | some um =>
      if um.team1_ready && um.team2_ready && !um.timer_start.isSome then
        ({ db1 with
           matchRows := updateMatches db1.matchRows mid fun r =>
             { r with timer_start := some now, status := .active },
           teams := updateTeams db1.teams
             (fun tid => decide (tid = m.team1_id) || decide (tid = m.team2_id))
             (fun t => { t with status := .matchActive }) },
         true)
      else (db1, true)

/-- Python int() conversion: truncation toward zero. -/
noncomputable def pyInt (x : ℝ) : Int :=
  if 0 ≤ x then Int.floor x else Int.ceil x

/-- expected1 of submit_score (line 302): 1 / (1 + 10 ** ((elo2 -
elo1) / 400)), the float arithmetic idealised over the reals. -/
noncomputable def expected1fun (elo1 elo2 : Int) : ℝ :=
  1 / (1 + (10 : ℝ) ^ ((((elo2 - elo1 : Int) : ℝ)) / 400))

/-- new_elo1 of submit_score (line 308) with k = 32 and actual1 the
0-or-1 outcome for team 1. -/
noncomputable def newElo1 (elo1 elo2 : Int) (actual1 : ℝ) : Int :=
  pyInt ((elo1 : ℝ) + 32 * (actual1 - expected1fun elo1 elo2))

/-- new_elo2 of submit_score (line 309): expected2 = 1 - expected1 and
actual2 = 1 - actual1. -/
noncomputable def newElo2 (elo1 elo2 : Int) (actual1 : ℝ) : Int :=
  pyInt ((elo2 : ℝ) + 32 * ((1 - actual1) - (1 - expected1fun elo1 elo2)))

/-- INSERT ... ON CONFLICT(match_id, team_id) DO UPDATE of submit_score
(lines 243-250): replace the scores of an existing (match, team) row,
else append a new row. -/
def upsertSubmission (subs : List Submission) (mid tid : Nat) (sf sa : Int) :
    List Submission :=
  if subs.any (fun s => decide (s.match_id = mid) && decide (s.team_id = tid)) then
    subs.map fun s =>
      if decide (s.match_id = mid) && decide (s.team_id = tid) then
        { s with score_for := sf, score_against := sa }
      else s
  else subs ++ [⟨mid, tid, sf, sa⟩]

/-- Python dict lookup subs_map.get(tid) where subs_map is built in row
order over the submissions of the match, so the last row of a team
wins. -/
def subLookup (subs : List Submission) (mid tid : Nat) : Option Submission :=
  ((subs.filter fun s => decide (s.match_id = mid)).reverse).find? fun s =>
    decide (s.team_id = tid)

/-- len(subs_map): the number of distinct team ids among the
submissions of the match. -/
def subTeamCount (subs : List Submission) (mid : Nat) : Nat :=
  (((subs.filter fun s => decide (s.match_id = mid)).map Submission.team_id).dedup).length

/-- Return value of submit_score, covering the four dictionaries the
source returns: the Invalid match state error, the match_completed
success, the Scores do not match error, and the waiting_for_opponent
success. -/
inductive SubmitResult
  | invalidState
  | matchCompleted
  | mismatch
  | waitingForOpponent
deriving DecidableEq

/-- Finalisation block of submit_score (lines 270-320): complete the
match, release and credit both teams, compute and persist the Elo
update, and append the history rows.  A missing team row makes the
source raise on subscripting, modelled as none. -/
noncomputable def finalize (db1 : DB) (m : MatchRow) (mid : Nat) (now : Int)
    (fs1 fs2 : Int) : Option (DB × SubmitResult) :=
  let winner_id := if fs1 > fs2 then m.team1_id else m.team2_id
  let loser_id := if winner_id = m.team1_id then m.team2_id else m.team1_id
  let matches2 := updateMatches db1.matchRows mid fun r =>
    { r with status := .completed, score1 := some fs1, score2 := some fs2,
             winner_id := some winner_id, end_time := some now }
  let teamsA := updateTeams db1.teams
    (fun tid => decide (tid = m.team1_id) || decide (tid = m.team2_id))
    (fun t => { t with status := .noMatch, plays := t.plays + 1 })
  let teamsB := updateTeams teamsA (fun tid => decide (tid = winner_id))
    (fun t => { t with wins := t.wins + 1 })
  let teamsC := updateTeams teamsB (fun tid => decide (tid = loser_id))
    (fun t => { t with losses := t.losses + 1 })
  match findTeamL teamsC m.team1_id, findTeamL teamsC m.team2_id with
  | some team1, some team2 =>
    let actual1 : ℝ := if winner_id = m.team1_id then 1 else 0
    let e1 := newElo1 team1.elo team2.elo actual1
    let e2 := newElo2 team1.elo team2.elo actual1
    let teamsD := updateTeams teamsC (fun tid => decide (tid = m.team1_id))
      (fun t => { t with elo := e1 })
    let teamsE := updateTeams teamsD (fun tid => decide (tid = m.team2_id))
      (fun t => { t with elo := e2 })
    let hist := db1.elo_history ++ [⟨m.team1_id, e1⟩, ⟨m.team2_id, e2⟩]
    let db2 : DB := { db1 with matchRows := matches2, teams := teamsE,
                               elo_history := hist }
    some (db2, .matchCompleted)
  | _, _ => none

/-- MatchManager.submit_score (lines 235-331): reject completed or
missing matches, upsert the submission and clear the mismatch flag,
then if both teams have submitted, compare team 1 scores against the
mirrored team 2 scores and finalize or set the mismatch flag. -/
noncomputable def submit_score (db : DB) (mid uid : Nat) (sf sa : Int)
    (now : Int) : Option (DB × SubmitResult) :=
  match findMatchL db.matchRows mid with
  | none => some (db, .invalidState)
  | some m =>
    if m.status = .completed then some (db, .invalidState)
    else
      let subs1 := upsertSubmission db.submissions mid uid sf sa
      let matches1 := updateMatches db.matchRows mid fun r =>
        { r with mismatch_flag := false }
      let db1 : DB := { db with submissions := subs1, matchRows := matches1 }
      if subTeamCount subs1 mid = 2 then
        match subLookup subs1 mid m.team1_id, subLookup subs1 mid m.team2_id with
        | some t1s, some t2s =>
          if t1s.score_for = t2s.score_against ∧ t1s.score_against = t2s.score_for then
            finalize db1 m mid now t1s.score_for t1s.score_against
          else
            let matchesMm := updateMatches db1.matchRows mid fun r =>
              { r with mismatch_flag := true }
            some ({ db1 with matchRows := matchesMm }, .mismatch)
        | _, _ => none
      else
        some (db1, .waitingForOpponent)

/-! Concrete database values used by the witnesses and counterexamples. -/

/-- Counterexample input for the pairing precondition claim: team 1 is
already in a match (match_pending) while team 2 is available. -/
def cexDB3 : DB :=
  ⟨[⟨1, .matchPending, 1000, 0, 0, 0⟩, ⟨2, .available, 1000, 0, 0, 0⟩],
   [], [1], [], [], 1⟩

/-- Witness input for the amended pairing claim: team 1 is in a match
and nobody else is available. -/
def wDB3 : DB :=
  ⟨[⟨1, .matchActive, 1000, 0, 0, 0⟩, ⟨2, .noMatch, 1000, 0, 0, 0⟩],
   [], [1], [], [], 1⟩

/-- A live match occupying table 2 with scheduled_start 0. -/
def cexRow4 : MatchRow :=
  ⟨7, 3, 4, some 2, .active, some 0, some 0, true, true, false, false,
   none, none, none, none, false, false⟩

/-- Counterexample input for the scheduling claim: two tables, the only
live match sits on table 2, and the pairing engine will pick table 1. -/
def cexDB4 : DB :=
  ⟨[⟨1, .noMatch, 1000, 0, 0, 0⟩, ⟨2, .available, 1000, 0, 0, 0⟩],
   [cexRow4], [1, 2], [], [], 8⟩

/-- Witness input for the amended scheduling claim: one available
opponent and no matches at all. -/
def wDB4 : DB :=
  ⟨[⟨1, .noMatch, 1000, 0, 0, 0⟩, ⟨2, .available, 1000, 0, 0, 0⟩],
   [], [1], [], [], 1⟩

/-- Witness match row for the forced-start claim: a ready_check match
with scheduled_start 0 and no ready action taken. -/
def wRow5 : MatchRow :=
  ⟨1, 1, 2, some 1, .readyCheck, some 0, none, false, false, false, false,
   none, none, none, none, false, false⟩

/-- Witness input for the forced-start claim. -/
def wDB5 : DB :=
  ⟨[⟨1, .matchPending, 1000, 0, 0, 0⟩, ⟨2, .matchPending, 1000, 0, 0, 0⟩],
   [wRow5], [1], [], [], 2⟩

/-- Witness input for the self-healing claim: team 1 is recorded as
match_pending but no match row exists at all. -/
def wDB6 : DB :=
  ⟨[⟨1, .matchPending, 1000, 0, 0, 0⟩], [], [], [], [], 1⟩

/-- A finished match between teams 1 and 2 awaiting score submissions,
used by the agreement witness. -/
def wRow1 : MatchRow :=
  ⟨1, 1, 2, some 1, .finished, some 0, some 10, true, true, true, true,
   none, none, none, none, false, false⟩

/-- Witness input for the agreement claim: team 1 already submitted
(10, 5) and team 2 is about to submit the agreeing (5, 10). -/
def wDB1 : DB :=
  ⟨[⟨1, .matchActive, 1000, 0, 0, 0⟩, ⟨2, .matchActive, 1000, 0, 0, 0⟩],
   [wRow1], [1], [⟨1, 1, 10, 5⟩], [], 2⟩

/-- A finished match between teams 1 and 2 awaiting score submissions. -/
def wRow2 : MatchRow :=
  ⟨1, 1, 2, some 1, .finished, some 0, some 10, true, true, true, true,
   none, none, none, none, false, false⟩

/-- Witness input for the mismatch claim: team 1 already submitted
(10, 5) and team 2 is about to submit the disagreeing (7, 10). -/
def wDB2 : DB :=
  ⟨[⟨1, .matchActive, 1000, 0, 0, 0⟩, ⟨2, .matchActive, 1000, 0, 0, 0⟩],
   [wRow2], [1], [⟨1, 1, 10, 5⟩], [], 2⟩

/-- A finished match between teams 1 and 2, used by the rating
witness. -/
def wRow7 : MatchRow :=
  ⟨1, 1, 2, some 1, .finished, some 0, some 10, true, true, true, true,
   none, none, none, none, false, false⟩

/-- Witness input for the rating claim: both teams at Elo 1000, team 1
submitted (10, 5) and team 2 is about to submit the agreeing (5, 10). -/
def wDB7 : DB :=
  ⟨[⟨1, .matchActive, 1000, 0, 0, 0⟩, ⟨2, .matchActive, 1000, 0, 0, 0⟩],
   [wRow7], [1], [⟨1, 1, 10, 5⟩], [], 2⟩

/-- A finished match between teams 1 and 2, used by the tie witness. -/
def wRow10 : MatchRow :=
  ⟨1, 1, 2, some 1, .finished, some 0, some 10, true, true, true, true,
   none, none, none, none, false, false⟩

/-- Witness input for the tie claim: team 1 submitted the tie (7, 7)
and team 2 is about to submit the agreeing tie (7, 7). -/
def wDB10 : DB :=
  ⟨[⟨1, .matchActive, 1000, 0, 0, 0⟩, ⟨2, .matchActive, 1000, 0, 0, 0⟩],
   [wRow10], [1], [⟨1, 1, 7, 7⟩], [], 2⟩

/-- An active, force-started match between teams 1 and 2: the timer is
running but team 1 never pressed ready. -/
def cexRow8 : MatchRow :=
  ⟨1, 1, 2, some 1, .active, some 0, some 10, false, true, false, false,
   none, none, none, none, false, false⟩

/-- Counterexample input for the setReady frame claim. -/
def cexDB8 : DB :=
  ⟨[⟨1, .matchActive, 1000, 0, 0, 0⟩, ⟨2, .matchActive, 1000, 0, 0, 0⟩],
   [cexRow8], [1], [], [], 2⟩

/-- Witness match row for the amended setReady claim. -/
def wRow8 : MatchRow :=
  ⟨1, 1, 2, some 1, .active, some 0, some 10, false, true, false, false,
   none, none, none, none, false, false⟩

/-- Witness input for the amended setReady claim: the same shape as
the counterexample database. -/
def wDB8 : DB :=
  ⟨[⟨1, .matchActive, 1000, 0, 0, 0⟩, ⟨2, .matchActive, 1000, 0, 0, 0⟩],
   [wRow8], [1], [], [], 2⟩

/-! Helper lemmas about the row-level operations. -/

theorem findTeamL_id {ts : List Team} {tid : Nat} {t : Team}
    (h : findTeamL ts tid = some t) : t.id = tid := by
  have := List.find?_some h
  exact of_decide_eq_true this

theorem findMatchL_id {ms : List MatchRow} {mid : Nat} {m : MatchRow}
    (h : findMatchL ms mid = some m) : m.id = mid := by
  have := List.find?_some h
  exact of_decide_eq_true this

theorem findMatchL_mem {ms : List MatchRow} {mid : Nat} {m : MatchRow}
    (h : findMatchL ms mid = some m) : m ∈ ms :=
  List.mem_of_find?_eq_some h

theorem findTeamL_updateTeams (ts : List Team) (p : Nat → Bool) (f : Team → Team)
    (hf : ∀ t, (f t).id = t.id) (tid : Nat) :
    findTeamL (updateTeams ts p f) tid =
      (findTeamL ts tid).map fun t => if p t.id then f t else t := by
  induction ts with
  | nil => rfl
  | cons a l ih =>
    have hid : (if p a.id then f a else a).id = a.id := by
      by_cases hp : p a.id <;> simp [hp, hf]
    by_cases h : a.id = tid
    · have hT : decide ((if p a.id then f a else a).id = tid) = true := by
        rw [hid]; simp [h]
      have hT2 : decide (a.id = tid) = true := by simp [h]
      simp only [findTeamL, updateTeams, List.map_cons, List.find?_cons, hT, hT2,
        Option.map_some']
    · have hLhs : decide ((if p a.id then f a else a).id = tid) = false := by
        rw [hid]; simp [h]
      have hRhs : decide (a.id = tid) = false := by simp [h]
      simp only [findTeamL, updateTeams, List.map_cons, List.find?_cons, hLhs, hRhs]
      simpa [findTeamL, updateTeams] using ih

theorem findMatchL_updateMatches (ms : List MatchRow) (mid2 : Nat)
    (f : MatchRow → MatchRow) (hf : ∀ m, (f m).id = m.id) (mid : Nat) :
    findMatchL (updateMatches ms mid2 f) mid =
      (findMatchL ms mid).map fun m => if m.id = mid2 then f m else m := by
  induction ms with
  | nil => rfl
  | cons a l ih =>
    have hid : (if a.id = mid2 then f a else a).id = a.id := by
      by_cases hp : a.id = mid2 <;> simp [hp, hf]
    by_cases h : a.id = mid
    · have hT : decide ((if a.id = mid2 then f a else a).id = mid) = true := by
        rw [hid]; simp [h]
      have hT2 : decide (a.id = mid) = true := by simp [h]
      simp only [findMatchL, updateMatches, List.map_cons, List.find?_cons, hT, hT2,
        Option.map_some']
    · have hLhs : decide ((if a.id = mid2 then f a else a).id = mid) = false := by
        rw [hid]; simp [h]
      have hRhs : decide (a.id = mid) = false := by simp [h]
      simp only [findMatchL, updateMatches, List.map_cons, List.find?_cons, hLhs, hRhs]
      simpa [findMatchL, updateMatches] using ih

theorem pickEarliest_mem {l : List MatchRow} {m : MatchRow}
    (h : pickEarliest l = some m) : m ∈ l := by
  suffices haux : ∀ (l : List MatchRow) (acc : Option MatchRow) (m : MatchRow),
      l.foldl
        (fun acc x =>
          match acc with
          | none => some x
          | some a => if schedLt x.scheduled_start a.scheduled_start then some x else some a)
        acc = some m → acc = some m ∨ m ∈ l by
    rcases haux l none m h with h1 | h2
    · exact absurd h1 (by simp)
    · exact h2
  intro l
  induction l with
  | nil => intro acc m h; exact Or.inl h
  | cons a t ih =>
    intro acc m h
    rcases ih _ m h with h1 | h2
    · match acc with
      | none =>
        simp at h1
        exact Or.inr (h1 ▸ List.mem_cons_self a t)
      | some b =>
        by_cases hc : schedLt a.scheduled_start b.scheduled_start
        · simp [hc] at h1
          exact Or.inr (h1 ▸ List.mem_cons_self a t)
        · simp [hc] at h1
          exact Or.inl (by rw [h1])
    · exact Or.inr (List.mem_cons_of_mem a h2)

theorem foldlM_option_invariant {α β : Type} (P : β → Prop) (f : β → α → Option β)
    (hstep : ∀ b a b2, f b a = some b2 → P b → P b2) :
    ∀ (l : List α) (b out : β), List.foldlM f b l = some out → P b → P out := by
  intro l
  induction l with
  | nil =>
    intro b out h hb
    simp [List.foldlM_nil] at h
    exact h ▸ hb
  | cons a t ih =>
    intro b out h hb
    rw [List.foldlM_cons] at h
    rcases Option.bind_eq_some.mp h with ⟨b2, h2, h3⟩
    exact ih b2 out h3 (hstep b a b2 h2 hb)

theorem foldlM_option_split {α β : Type} (f : β → α → Option β)
    (l1 l2 : List α) (x : α) (init out : β)
    (h : List.foldlM f init (l1 ++ x :: l2) = some out) :
    ∃ b1 b2, List.foldlM f init l1 = some b1 ∧ f b1 x = some b2 ∧
      List.foldlM f b2 l2 = some out := by
  rw [List.foldlM_append] at h
  rcases Option.bind_eq_some.mp h with ⟨b1, h1, h2⟩
  rw [List.foldlM_cons] at h2
  rcases Option.bind_eq_some.mp h2 with ⟨b2, h3, h4⟩
  exact ⟨b1, b2, h1, h3, h4⟩

theorem matchRow_readyCheck_eta (r : MatchRow) (h : r.status = .readyCheck) :
    ({ r with status := MatchStatus.readyCheck } : MatchRow) = r := by
  cases r
  simp_all

theorem int_max?_eq_some_iff (xs : List Int) (a : Int) :
    xs.max? = some a ↔ a ∈ xs ∧ ∀ b ∈ xs, b ≤ a := by
  have anti : Std.Antisymm (fun (x1 x2 : Int) => x1 ≤ x2) :=
    ⟨fun h1 h2 => le_antisymm h1 h2⟩
  exact @List.max?_eq_some_iff Int a _ _ anti (fun a => le_refl a)
    (fun a b => max_choice a b) (fun a b c => max_le_iff) xs

theorem lastScheduled_eq_none (ms : List MatchRow)
    (h : ∀ m ∈ ms, isOpenStatus m.status = true → m.scheduled_start = none) :
    lastScheduled ms = none := by
  unfold lastScheduled
  rw [List.max?_eq_none_iff, List.filterMap_eq_nil_iff]
  intro m hm
  by_cases ho : isOpenStatus m.status
  · simp [ho, h m hm ho]
  · simp [ho]

theorem lastScheduled_eq_some (ms : List MatchRow) (s : Int)
    (hmem : ∃ m ∈ ms, isOpenStatus m.status = true ∧ m.scheduled_start = some s)
    (hub : ∀ m ∈ ms, isOpenStatus m.status = true →
      ∀ s2, m.scheduled_start = some s2 → s2 ≤ s) :
    lastScheduled ms = some s := by
  unfold lastScheduled
  rw [int_max?_eq_some_iff]
  constructor
  · rcases hmem with ⟨m, hm, ho, hs⟩
    rw [List.mem_filterMap]
    exact ⟨m, hm, by simp [ho, hs]⟩
  · intro b hb
    rw [List.mem_filterMap] at hb
    rcases hb with ⟨m, hm, hf⟩
    by_cases ho : isOpenStatus m.status
    · rw [if_pos ho] at hf
      exact hub m hm ho b hf
    · rw [if_neg ho] at hf
      exact absurd hf (by simp)

/-- C3 counterexample: team 1 has status match_pending, team 2 is
available, and try_create_match called for team 1 is not a no-op: it
creates a match row and changes the status of team 2 to match_pending,
refuting the claim that the engine refuses or does nothing when the
requester is already in a match. -/
theorem try_create_match_ignores_requester_status_cex :
    (findTeamL cexDB3.teams 1).map Team.status = some .matchPending ∧
    (try_create_match cexDB3 1 0 0).2 = some 1 ∧
    (try_create_match cexDB3 1 0 0).1.matchRows.length = 1 ∧
    (findTeamL (try_create_match cexDB3 1 0 0).1.teams 2).map Team.status =
      some .matchPending := by
  decide

/-- C3 (amended): try_create_match does not validate the requesting
team status, so with an available opponent it pairs even a team that is
match_pending or match_active; it refuses and leaves every record
unchanged exactly when no team with status available and a different id
exists, in particular when the requester is already in a match. -/
theorem try_create_match_no_opponent_noop
    (db : DB) (uid : Nat) (now : Int) (pick : Nat) (t : Team)
    (ht : findTeamL db.teams uid = some t)
    (hst : t.status = .matchPending ∨ t.status = .matchActive)
    (hno : ∀ t2 ∈ db.teams, t2.status = .available → t2.id = uid) :
    try_create_match db uid now pick = (db, none) := by
  have helig : (db.teams.filter fun t2 =>
      decide (t2.status = .available) && decide (¬ t2.id = uid)) = [] := by
    rw [List.filter_eq_nil_iff]
    intro a ha
    simp only [Bool.and_eq_true, decide_eq_true_eq]
    intro hpair
    exact hpair.2 (hno a ha hpair.1)
  unfold try_create_match
  rw [helig]
  rfl

/-- Witness for the amended C3 theorem at a concrete database. -/
theorem try_create_match_no_opponent_noop_witness :
    try_create_match wDB3 1 0 0 = (wDB3, none) :=
  try_create_match_no_opponent_noop wDB3 1 0 0 ⟨1, .matchActive, 1000, 0, 0, 0⟩
    (by decide) (by decide) (by decide)

/-- C4 counterexample: the engine picks table 1 (the first table), no
match with an open status exists on table 1, yet the created match is
scheduled at 0 + 12min + 3min = 900 taken from the live match on table
2 instead of at now = 5000, refuting the claim that the computation
considers only matches on the chosen table. -/
theorem try_create_match_schedule_cex :
    cexDB4.tables.head? = some 1 ∧
    (∀ m ∈ cexDB4.matchRows, ¬ m.table_id = some 1) ∧
    (try_create_match cexDB4 1 5000 0).2 = some 8 ∧
    (findMatchL (try_create_match cexDB4 1 5000 0).1.matchRows 8).map
      MatchRow.scheduled_start = some (some 900) ∧
    ¬ (900 : Int) = 5000 := by
  decide

/-- C4 (amended): when try_create_match succeeds, the new match
scheduled_start is computed from the latest match with status in
pending, ready_check, active or finished and a non-NULL
scheduled_start on ANY table (the query has no table filter): that
value plus MATCH_DURATION (12 min) plus BUFFER (3 min), and now when
no such match exists. -/
theorem try_create_match_schedule
    (db : DB) (uid : Nat) (now : Int) (pick : Nat)
    (helig : ∃ t ∈ db.teams, t.status = .available ∧ ¬ t.id = uid)
    (hfresh : ∀ m ∈ db.matchRows, ¬ m.id = db.nextMatchId) :
    ∃ mrow : MatchRow,
      (try_create_match db uid now pick).2 = some db.nextMatchId ∧
      findMatchL (try_create_match db uid now pick).1.matchRows db.nextMatchId =
        some mrow ∧
      ((∀ m ∈ db.matchRows, isOpenStatus m.status = true → m.scheduled_start = none) →
        mrow.scheduled_start = some now) ∧
      (∀ s : Int,
        (∃ m ∈ db.matchRows, isOpenStatus m.status = true ∧ m.scheduled_start = some s) →
        (∀ m ∈ db.matchRows, isOpenStatus m.status = true →
          ∀ s2, m.scheduled_start = some s2 → s2 ≤ s) →
        mrow.scheduled_start =
          some (s + minutes MATCH_DURATION_MINUTES + minutes BUFFER_MINUTES)) := by
  have hne : (db.teams.filter fun t =>
      decide (t.status = .available) && decide (¬ t.id = uid)) ≠ [] := by
    rcases helig with ⟨t, ht, h1, h2⟩
    intro hnil
    rw [List.filter_eq_nil_iff] at hnil
    exact hnil t ht (by simp [h1, h2])
  have hlen : 0 < (db.teams.filter fun t =>
      decide (t.status = .available) && decide (¬ t.id = uid)).length :=
    List.length_pos.mpr hne
  have hidx : pick % (db.teams.filter fun t =>
        decide (t.status = .available) && decide (¬ t.id = uid)).length <
      (db.teams.filter fun t =>
        decide (t.status = .available) && decide (¬ t.id = uid)).length :=
    Nat.mod_lt _ hlen
  obtain ⟨opp, hget⟩ : ∃ x : Team, (db.teams.filter fun t =>
      decide (t.status = .available) && decide (¬ t.id = uid)).get?
        (pick % (db.teams.filter fun t =>
          decide (t.status = .available) && decide (¬ t.id = uid)).length) = some x :=
    ⟨_, List.get?_eq_get hidx⟩
  have hrun : try_create_match db uid now pick =
      ({ teams := updateTeams
           (updateTeams db.teams (fun tid => decide (tid = opp.id))
             (fun t => { t with status := .matchPending }))
           (fun tid => decide (tid = uid))
           (fun t => { t with status := .matchPending }),
         matchRows := db.matchRows ++
           [{ id := db.nextMatchId, team1_id := uid, team2_id := opp.id,
              table_id := db.tables.head?, status := .pending,
              scheduled_start := some (match lastScheduled db.matchRows with
                | some s => s + minutes MATCH_DURATION_MINUTES + minutes BUFFER_MINUTES
                | none => now),
              timer_start := none, team1_ready := false, team2_ready := false,
              team1_done := false, team2_done := false, score1 := none,
              score2 := none, winner_id := none, end_time := none,
              mismatch_flag := false, notification_sent := false }],
         tables := db.tables, submissions := db.submissions,
         elo_history := db.elo_history, nextMatchId := db.nextMatchId + 1 },
       some db.nextMatchId) := by
    simp only [try_create_match]
    rw [hget]
  refine ⟨{ id := db.nextMatchId, team1_id := uid, team2_id := opp.id,
            table_id := db.tables.head?, status := .pending,
            scheduled_start := some (match lastScheduled db.matchRows with
              | some s => s + minutes MATCH_DURATION_MINUTES + minutes BUFFER_MINUTES
              | none => now),
            timer_start := none, team1_ready := false, team2_ready := false,
            team1_done := false, team2_done := false, score1 := none,
            score2 := none, winner_id := none, end_time := none,
            mismatch_flag := false, notification_sent := false }, ?_, ?_, ?_, ?_⟩
  · rw [hrun]
  · rw [hrun]
    unfold findMatchL
    rw [List.find?_append]
    have h1 : db.matchRows.find? (fun m => decide (m.id = db.nextMatchId)) = none := by
      rw [List.find?_eq_none]
      intro x hx
      simpa using hfresh x hx
    rw [h1]
    simp [List.find?_cons]
  · intro h
    have hnone : lastScheduled db.matchRows = none := lastScheduled_eq_none _ h
    simp [hnone]
  · intro s hmem hub
    have hsome : lastScheduled db.matchRows = some s := lastScheduled_eq_some _ s hmem hub
    simp [hsome]

/-- Witness for the amended C4 theorem at a concrete database: no
match exists, so the created match is scheduled at now. -/
theorem try_create_match_schedule_witness :
    ∃ mrow : MatchRow,
      (try_create_match wDB4 1 77 0).2 = some 1 ∧
      findMatchL (try_create_match wDB4 1 77 0).1.matchRows 1 = some mrow ∧
      ((∀ m ∈ wDB4.matchRows, isOpenStatus m.status = true → m.scheduled_start = none) →
        mrow.scheduled_start = some 77) ∧
      (∀ s : Int,
        (∃ m ∈ wDB4.matchRows, isOpenStatus m.status = true ∧ m.scheduled_start = some s) →
        (∀ m ∈ wDB4.matchRows, isOpenStatus m.status = true →
          ∀ s2, m.scheduled_start = some s2 → s2 ≤ s) →
        mrow.scheduled_start =
          some (s + minutes MATCH_DURATION_MINUTES + minutes BUFFER_MINUTES)) :=
  try_create_match_schedule wDB4 1 77 0
    ⟨⟨2, .available, 1000, 0, 0, 0⟩, by decide, by decide, by decide⟩
    (by decide)

/-- C8 counterexample: the match is already active (forced start, team
1 ready flag still false) and set_ready for team 1 changes the match
record, setting team1_ready from false to true, refuting the claim
that the call has no effect on any field. -/
theorem set_ready_active_changes_flag_cex :
    (findMatchL cexDB8.matchRows 1).map MatchRow.status = some .active ∧
    (findMatchL cexDB8.matchRows 1).map MatchRow.team1_ready = some false ∧
    (findMatchL (set_ready cexDB8 1 1 99).1.matchRows 1).map MatchRow.team1_ready =
      some true := by
  decide

/-- C8 (amended): for a match that is already active and whose timer
has started, set_ready called by a participant only sets that team
ready flag on the match row; the status, timer, scores and every other
match field are kept, and no team status, submission or history row
changes. -/
theorem set_ready_active_only_sets_flag
    (db : DB) (mid uid : Nat) (now : Int) (m : MatchRow)
    (hm : findMatchL db.matchRows mid = some m)
    (hactive : m.status = .active)
    (htimer : ¬ m.timer_start = none)
    (hpart : uid = m.team1_id ∨ uid = m.team2_id) :
    ∃ db2 : DB,
      set_ready db mid uid now = (db2, true) ∧
      db2.teams = db.teams ∧
      db2.submissions = db.submissions ∧
      db2.elo_history = db.elo_history ∧
      db2.tables = db.tables ∧
      findMatchL db2.matchRows mid =
        some (if uid = m.team1_id then { m with team1_ready := true }
              else { m with team2_ready := true }) := by
  have hid : m.id = mid := findMatchL_id hm
  have hts : m.timer_start.isSome = true := Option.ne_none_iff_isSome.mp htimer
  by_cases hu : uid = m.team1_id
  · have hfind1 : findMatchL
        (updateMatches db.matchRows mid fun r => { r with team1_ready := true }) mid =
        some { m with team1_ready := true } := by
      rw [findMatchL_updateMatches db.matchRows mid
        (fun r => { r with team1_ready := true }) (fun r => rfl) mid, hm]
      simp [hid]
    refine ⟨{ db with matchRows := updateMatches db.matchRows mid fun r => { r with team1_ready := true } }, ?_, rfl, rfl, rfl, rfl, ?_⟩
    · simp only [set_ready, hm]
      rw [if_pos hu]
      simp only [hfind1]
      simp [hts]
    · rw [if_pos hu]
      exact hfind1
  · have hfind2 : findMatchL
        (updateMatches db.matchRows mid fun r => { r with team2_ready := true }) mid =
        some { m with team2_ready := true } := by
      rw [findMatchL_updateMatches db.matchRows mid
        (fun r => { r with team2_ready := true }) (fun r => rfl) mid, hm]
      simp [hid]
    refine ⟨{ db with matchRows := updateMatches db.matchRows mid fun r => { r with team2_ready := true } }, ?_, rfl, rfl, rfl, rfl, ?_⟩
    · simp only [set_ready, hm]
      rw [if_neg hu]
      simp only [hfind2]
      simp [hts]
    · rw [if_neg hu]
      exact hfind2

theorem mem_updateMatches {ms : List MatchRow} {mid : Nat}
    {f : MatchRow → MatchRow} {r : MatchRow} (hr : r ∈ updateMatches ms mid f) :
    ∃ r0 ∈ ms, r = if r0.id = mid then f r0 else r0 := by
  unfold updateMatches at hr
  rcases List.mem_map.mp hr with ⟨r0, hr0, heq⟩
  exact ⟨r0, hr0, heq.symm⟩

theorem mem_updateTeams {ts : List Team} {p : Nat → Bool}
    {f : Team → Team} {t : Team} (ht : t ∈ updateTeams ts p f) :
    ∃ t0 ∈ ts, t = if p t0.id then f t0 else t0 := by
  unfold updateTeams at ht
  rcases List.mem_map.mp ht with ⟨t0, ht0, heq⟩
  exact ⟨t0, ht0, heq.symm⟩

theorem pass1Step_preserves_ready (now : Int) (db : DB) (x r : MatchRow)
    (hst : r.status = .readyCheck) (hr : r ∈ db.matchRows) :
    r ∈ (pass1Step now db x).matchRows := by
  unfold pass1Step
  cases hss : x.scheduled_start with
  | none => exact hr
  | some ss =>
    by_cases h1 : now ≥ ss - minutes 3
    · by_cases h2 : pass1Busy db.matchRows x.table_id
      · simp only [if_pos h1, if_pos h2]
        exact hr
      · simp only [if_pos h1, if_neg h2]
        have hfix : (if r.id = x.id then
            ({ r with status := MatchStatus.readyCheck }) else r) = r := by
          by_cases h3 : r.id = x.id
          · rw [if_pos h3]
            exact matchRow_readyCheck_eta r hst
          · rw [if_neg h3]
        have hmm : (if r.id = x.id then
            ({ r with status := MatchStatus.readyCheck }) else r) ∈
            updateMatches db.matchRows x.id
              (fun q => { q with status := MatchStatus.readyCheck }) :=
          List.mem_map_of_mem
            (fun q => if q.id = x.id then
              ({ q with status := MatchStatus.readyCheck }) else q) hr
        rw [hfix] at hmm
        exact hmm
    · simp only [if_neg h1]
      exact hr

theorem pass1_fold_preserves_ready (now : Int) (l : List MatchRow) (db : DB)
    (r : MatchRow) (hst : r.status = .readyCheck) (hr : r ∈ db.matchRows) :
    r ∈ (l.foldl (pass1Step now) db).matchRows := by
  induction l generalizing db with
  | nil => exact hr
  | cons a t ih =>
    exact ih (pass1Step now db a) (pass1Step_preserves_ready now db a r hst hr)

theorem pass2Step_establish (now : Int) (db : DB) (m : MatchRow) (ss : Int)
    (db2 : DB) (hss : m.scheduled_start = some ss)
    (hlate : now > ss + minutes READY_CHECK_TIMEOUT_MINUTES)
    (h : pass2Step now db m = some db2) :
    (∀ r ∈ db2.matchRows, r.id = m.id → r.status = .active ∧ r.timer_start = some now) ∧
    (∀ t ∈ db2.teams, (t.id = m.team1_id ∨ t.id = m.team2_id) →
      t.status = .matchActive) := by
  unfold pass2Step at h
  simp only [hss] at h
  rw [if_pos hlate] at h
  have hdb2 := (Option.some.injEq _ _).mp h
  subst hdb2
  constructor
  · intro r hr hid
    have hr2 : r ∈ updateMatches db.matchRows m.id
        (fun q => { q with status := MatchStatus.active, timer_start := some now }) := hr
    rcases mem_updateMatches hr2 with ⟨r0, hr0, heq⟩
    subst heq
    by_cases h3 : r0.id = m.id
    · rw [if_pos h3]
      exact ⟨rfl, rfl⟩
    · rw [if_neg h3] at hid ⊢
      exact absurd hid h3
  · intro t ht hid
    have ht2 : t ∈ updateTeams db.teams
        (fun tid => decide (tid = m.team1_id) || decide (tid = m.team2_id))
        (fun q => { q with status := TeamStatus.matchActive }) := ht
    rcases mem_updateTeams ht2 with ⟨t0, ht0, heq⟩
    subst heq
    by_cases hp : (decide (t0.id = m.team1_id) || decide (t0.id = m.team2_id)) = true
    · rw [if_pos hp]
    · rw [if_neg hp] at hid ⊢
      exfalso
      apply hp
      rcases hid with h4 | h4 <;> simp [h4]

theorem pass2Step_preserves (now : Int) (db db2 : DB) (x : MatchRow)
    (midv t1 t2 : Nat) (h : pass2Step now db x = some db2)
    (hP : ∀ r ∈ db.matchRows, r.id = midv → r.status = .active ∧ r.timer_start = some now)
    (hQ : ∀ t ∈ db.teams, (t.id = t1 ∨ t.id = t2) → t.status = .matchActive) :
    (∀ r ∈ db2.matchRows, r.id = midv → r.status = .active ∧ r.timer_start = some now) ∧
    (∀ t ∈ db2.teams, (t.id = t1 ∨ t.id = t2) → t.status = .matchActive) := by
  unfold pass2Step at h
  cases hss : x.scheduled_start with
  | none =>
    simp only [hss] at h
    exact Option.noConfusion h
  | some ss =>
    simp only [hss] at h
    by_cases hlate : now > ss + minutes READY_CHECK_TIMEOUT_MINUTES
    · rw [if_pos hlate] at h
      have hdb2 := (Option.some.injEq _ _).mp h
      subst hdb2
      constructor
      · intro r hr hid
        have hr2 : r ∈ updateMatches db.matchRows x.id
            (fun q => { q with status := MatchStatus.active, timer_start := some now }) := hr
        rcases mem_updateMatches hr2 with ⟨r0, hr0, heq⟩
        subst heq
        by_cases h3 : r0.id = x.id
        · rw [if_pos h3]
          exact ⟨rfl, rfl⟩
        · rw [if_neg h3] at hid ⊢
          exact hP r0 hr0 hid
      · intro t ht hid
        have ht2 : t ∈ updateTeams db.teams
            (fun tid => decide (tid = x.team1_id) || decide (tid = x.team2_id))
            (fun q => { q with status := TeamStatus.matchActive }) := ht
        rcases mem_updateTeams ht2 with ⟨t0, ht0, heq⟩
        subst heq
        by_cases hp : (decide (t0.id = x.team1_id) || decide (t0.id = x.team2_id)) = true
        · rw [if_pos hp]
        · rw [if_neg hp] at hid ⊢
          exact hQ t0 ht0 hid
    · rw [if_neg hlate] at h
      have hdb2 := (Option.some.injEq _ _).mp h
      subst hdb2
      exact ⟨hP, hQ⟩

theorem submit_score_both
    (db : DB) (mid uid : Nat) (sf sa now : Int) (m : MatchRow)
    (t1s t2s : Submission)
    (hm : findMatchL db.matchRows mid = some m)
    (hnc : ¬ m.status = .completed)
    (hcnt : subTeamCount (upsertSubmission db.submissions mid uid sf sa) mid = 2)
    (hs1 : subLookup (upsertSubmission db.submissions mid uid sf sa) mid
      m.team1_id = some t1s)
    (hs2 : subLookup (upsertSubmission db.submissions mid uid sf sa) mid
      m.team2_id = some t2s) :
    submit_score db mid uid sf sa now =
      if t1s.score_for = t2s.score_against ∧ t1s.score_against = t2s.score_for then
        finalize { db with
            submissions := upsertSubmission db.submissions mid uid sf sa,
            matchRows := updateMatches db.matchRows mid
              (fun r => { r with mismatch_flag := false }) }
          m mid now t1s.score_for t1s.score_against
      else
        some ({ db with
            submissions := upsertSubmission db.submissions mid uid sf sa,
            matchRows := updateMatches
              (updateMatches db.matchRows mid (fun r => { r with mismatch_flag := false }))
              mid (fun r => { r with mismatch_flag := true }) }, .mismatch) := by
  simp only [submit_score, hm]
  rw [if_neg hnc, if_pos hcnt]
  simp only [hs1, hs2]

/-- C2: when both teams have submitted and the two submissions
disagree under the mirrored comparison, submit_score returns the
mismatch error, sets the mismatch flag, leaves every other match field
(in particular the status) unchanged, changes no team record and no
rating history, and retains both submissions. -/
theorem submit_score_mismatch_spec
    (db : DB) (mid uid : Nat) (sf sa now : Int) (m : MatchRow)
    (t1s t2s : Submission)
    (hm : findMatchL db.matchRows mid = some m)
    (hnc : ¬ m.status = .completed)
    (hcnt : subTeamCount (upsertSubmission db.submissions mid uid sf sa) mid = 2)
    (hs1 : subLookup (upsertSubmission db.submissions mid uid sf sa) mid
      m.team1_id = some t1s)
    (hs2 : subLookup (upsertSubmission db.submissions mid uid sf sa) mid
      m.team2_id = some t2s)
    (hdis : ¬ (t1s.score_for = t2s.score_against ∧ t1s.score_against = t2s.score_for)) :
    ∃ db2 : DB,
      submit_score db mid uid sf sa now = some (db2, .mismatch) ∧
      findMatchL db2.matchRows mid = some { m with mismatch_flag := true } ∧
      db2.teams = db.teams ∧
      db2.elo_history = db.elo_history ∧
      db2.submissions = upsertSubmission db.submissions mid uid sf sa ∧
      subLookup db2.submissions mid m.team1_id = some t1s ∧
      subLookup db2.submissions mid m.team2_id = some t2s := by
  have hid : m.id = mid := findMatchL_id hm
  refine ⟨{ db with
      submissions := upsertSubmission db.submissions mid uid sf sa,
      matchRows := updateMatches
        (updateMatches db.matchRows mid (fun r => { r with mismatch_flag := false }))
        mid (fun r => { r with mismatch_flag := true }) },
    ?_, ?_, rfl, rfl, rfl, hs1, hs2⟩
  · rw [submit_score_both db mid uid sf sa now m t1s t2s hm hnc hcnt hs1 hs2,
      if_neg hdis]
  · rw [findMatchL_updateMatches
      (updateMatches db.matchRows mid (fun r => { r with mismatch_flag := false }))
      mid (fun r => { r with mismatch_flag := true }) (fun r => rfl) mid]
    rw [findMatchL_updateMatches db.matchRows mid
      (fun r => { r with mismatch_flag := false }) (fun r => rfl) mid]
    rw [hm]
    simp [hid]

/-- Witness for the mismatch claim: team 1 submitted (10, 5), team 2
submits (7, 10), and the call flags the mismatch while the finished
match and both submissions survive untouched. -/
theorem submit_score_mismatch_spec_witness :
    ∃ db2 : DB,
      submit_score wDB2 1 2 7 10 99 = some (db2, .mismatch) ∧
      findMatchL db2.matchRows 1 = some { wRow2 with mismatch_flag := true } ∧
      db2.teams = wDB2.teams ∧
      db2.elo_history = wDB2.elo_history ∧
      db2.submissions = upsertSubmission wDB2.submissions 1 2 7 10 ∧
      subLookup db2.submissions 1 wRow2.team1_id = some ⟨1, 1, 10, 5⟩ ∧
      subLookup db2.submissions 1 wRow2.team2_id = some ⟨1, 2, 7, 10⟩ :=
  submit_score_mismatch_spec wDB2 1 2 7 10 99 wRow2 ⟨1, 1, 10, 5⟩ ⟨1, 2, 7, 10⟩
    (by decide) (by decide) (by decide) (by decide) (by decide) (by decide)

theorem finalize_spec
    (db1 : DB) (m mm : MatchRow) (mid : Nat) (now fs1 fs2 : Int)
    (team1 team2 : Team) (w l : Nat) (a1 : ℝ) (e1 e2 : Int)
    (hne : ¬ m.team1_id = m.team2_id)
    (hmm : findMatchL db1.matchRows mid = some mm)
    (ht1 : findTeamL db1.teams m.team1_id = some team1)
    (ht2 : findTeamL db1.teams m.team2_id = some team2)
    (hw : w = if fs1 > fs2 then m.team1_id else m.team2_id)
    (hl : l = if w = m.team1_id then m.team2_id else m.team1_id)
    (ha : a1 = if w = m.team1_id then (1 : Real) else 0)
    (he1 : e1 = newElo1 team1.elo team2.elo a1)
    (he2 : e2 = newElo2 team1.elo team2.elo a1) :
    ∃ db2 : DB,
      finalize db1 m mid now fs1 fs2 = some (db2, .matchCompleted) ∧
      findMatchL db2.matchRows mid =
        some { mm with
               status := MatchStatus.completed, score1 := some fs1,
               score2 := some fs2, winner_id := some w,
               end_time := some now } ∧
      findTeamL db2.teams m.team1_id =
        some { team1 with
               status := TeamStatus.noMatch, plays := team1.plays + 1,
               wins := team1.wins + (if w = m.team1_id then 1 else 0),
               losses := team1.losses + (if w = m.team1_id then 0 else 1),
               elo := e1 } ∧
      findTeamL db2.teams m.team2_id =
        some { team2 with
               status := TeamStatus.noMatch, plays := team2.plays + 1,
               wins := team2.wins + (if w = m.team1_id then 0 else 1),
               losses := team2.losses + (if w = m.team1_id then 1 else 0),
               elo := e2 } ∧
      db2.elo_history = db1.elo_history ++ [⟨m.team1_id, e1⟩, ⟨m.team2_id, e2⟩] ∧
      db2.submissions = db1.submissions ∧
      db2.tables = db1.tables := by
  have hid1 : team1.id = m.team1_id := findTeamL_id ht1
  have hid2 : team2.id = m.team2_id := findTeamL_id ht2
  have hidm : mm.id = mid := findMatchL_id hmm
  subst he1
  subst he2
  subst ha
  subst hl
  subst hw
  have hne2 : ¬ m.team2_id = m.team1_id := fun hq => hne hq.symm
  by_cases hgt : fs1 > fs2
  · have hwt : (if fs1 > fs2 then m.team1_id else m.team2_id) = m.team1_id :=
      if_pos hgt
    have hrun : finalize db1 m mid now fs1 fs2 =
        some ({ teams := updateTeams (updateTeams (updateTeams (updateTeams
                  (updateTeams db1.teams
                    (fun tid => decide (tid = m.team1_id) || decide (tid = m.team2_id))
                    (fun t => { t with status := TeamStatus.noMatch, plays := t.plays + 1 }))
                  (fun tid => decide (tid = m.team1_id))
                  (fun t => { t with wins := t.wins + 1 }))
                  (fun tid => decide (tid = m.team2_id))
                  (fun t => { t with losses := t.losses + 1 }))
                  (fun tid => decide (tid = m.team1_id))
                  (fun t => { t with elo := newElo1 team1.elo team2.elo 1 }))
                  (fun tid => decide (tid = m.team2_id))
                  (fun t => { t with elo := newElo2 team1.elo team2.elo 1 }),
                matchRows := updateMatches db1.matchRows mid
                  (fun r =>
                    { r with
                      status := MatchStatus.completed, score1 := some fs1,
                      score2 := some fs2, winner_id := some m.team1_id,
                      end_time := some now }),
                tables := db1.tables, submissions := db1.submissions,
                elo_history := db1.elo_history ++
                  [⟨m.team1_id, newElo1 team1.elo team2.elo 1⟩,
                   ⟨m.team2_id, newElo2 team1.elo team2.elo 1⟩],
                nextMatchId := db1.nextMatchId }, .matchCompleted) := by
      simp [finalize, hwt, findTeamL_updateTeams, ht1, ht2, hid1, hid2, hne, hne2]
    refine ⟨_, hrun, ?_, ?_, ?_, ?_, rfl, rfl⟩
    · simp [findMatchL_updateMatches, hmm, hidm, hwt]
    · simp [findTeamL_updateTeams, ht1, hid1, hne, hne2, hwt]
    · simp [findTeamL_updateTeams, ht2, hid2, hne, hne2, hwt]
    · simp [hwt, hne, hne2]
  · have hwt : (if fs1 > fs2 then m.team1_id else m.team2_id) = m.team2_id :=
      if_neg hgt
    have hrun : finalize db1 m mid now fs1 fs2 =
        some ({ teams := updateTeams (updateTeams (updateTeams (updateTeams
                  (updateTeams db1.teams
                    (fun tid => decide (tid = m.team1_id) || decide (tid = m.team2_id))
                    (fun t => { t with status := TeamStatus.noMatch, plays := t.plays + 1 }))
                  (fun tid => decide (tid = m.team2_id))
                  (fun t => { t with wins := t.wins + 1 }))
                  (fun tid => decide (tid = m.team1_id))
                  (fun t => { t with losses := t.losses + 1 }))
                  (fun tid => decide (tid = m.team1_id))
                  (fun t => { t with elo := newElo1 team1.elo team2.elo 0 }))
                  (fun tid => decide (tid = m.team2_id))
                  (fun t => { t with elo := newElo2 team1.elo team2.elo 0 }),
                matchRows := updateMatches db1.matchRows mid
                  (fun r =>
                    { r with
                      status := MatchStatus.completed, score1 := some fs1,
                      score2 := some fs2, winner_id := some m.team2_id,
                      end_time := some now }),
                tables := db1.tables, submissions := db1.submissions,
                elo_history := db1.elo_history ++
                  [⟨m.team1_id, newElo1 team1.elo team2.elo 0⟩,
                   ⟨m.team2_id, newElo2 team1.elo team2.elo 0⟩],
                nextMatchId := db1.nextMatchId }, .matchCompleted) := by
      simp [finalize, hwt, findTeamL_updateTeams, ht1, ht2, hid1, hid2, hne, hne2]
    refine ⟨_, hrun, ?_, ?_, ?_, ?_, rfl, rfl⟩
    · simp [findMatchL_updateMatches, hmm, hidm, hwt]
    · simp [findTeamL_updateTeams, ht1, hid1, hne, hne2, hwt]
    · simp [findTeamL_updateTeams, ht2, hid2, hne, hne2, hwt]
    · simp [hwt, hne, hne2]


theorem expected1fun_self (e : Int) : expected1fun e e = 1 / 2 := by
  unfold expected1fun
  rw [sub_self]
  norm_num [Real.rpow_zero]

theorem pyInt_intCast (n : Int) (hn : 0 ≤ n) : pyInt (n : ℝ) = n := by
  unfold pyInt
  rw [if_pos (by exact_mod_cast hn)]
  exact Int.floor_intCast n

theorem newElo1_1000_win : newElo1 1000 1000 1 = 1016 := by
  unfold newElo1
  rw [expected1fun_self]
  have h : ((1000 : Int) : ℝ) + 32 * (1 - 1 / 2) = ((1016 : Int) : ℝ) := by norm_num
  rw [h, pyInt_intCast 1016 (by decide)]

theorem newElo2_1000_win : newElo2 1000 1000 1 = 984 := by
  unfold newElo2
  rw [expected1fun_self]
  have h : ((1000 : Int) : ℝ) + 32 * ((1 - 1) - (1 - 1 / 2)) = ((984 : Int) : ℝ) := by
    norm_num
  rw [h, pyInt_intCast 984 (by decide)]

theorem newElo1_1000_loss : newElo1 1000 1000 0 = 984 := by
  unfold newElo1
  rw [expected1fun_self]
  have h : ((1000 : Int) : ℝ) + 32 * (0 - 1 / 2) = ((984 : Int) : ℝ) := by norm_num
  rw [h, pyInt_intCast 984 (by decide)]

theorem newElo2_1000_loss : newElo2 1000 1000 0 = 1016 := by
  unfold newElo2
  rw [expected1fun_self]
  have h : ((1000 : Int) : ℝ) + 32 * ((1 - 0) - (1 - 1 / 2)) = ((1016 : Int) : ℝ) := by
    norm_num
  rw [h, pyInt_intCast 1016 (by decide)]

/-- C1: when the second submission agrees with the stored first one
under the mirrored comparison, submit_score finalizes the match: the
row becomes completed with score1 and score2 taken from the team 1
submission, the winner reference and end time are set, both teams are
released to no_match with plays, wins and losses credited, the Elo
update is computed and persisted, one history row per team is
appended, and the call returns match_completed. -/
theorem submit_score_agreement_finalizes
    (db : DB) (mid uid : Nat) (sf sa now : Int) (m : MatchRow)
    (team1 team2 : Team) (t1s t2s : Submission)
    (w l : Nat) (a1 : ℝ) (e1 e2 : Int)
    (hm : findMatchL db.matchRows mid = some m)
    (hnc : ¬ m.status = .completed)
    (hne : ¬ m.team1_id = m.team2_id)
    (ht1 : findTeamL db.teams m.team1_id = some team1)
    (ht2 : findTeamL db.teams m.team2_id = some team2)
    (hcnt : subTeamCount (upsertSubmission db.submissions mid uid sf sa) mid = 2)
    (hs1 : subLookup (upsertSubmission db.submissions mid uid sf sa) mid
      m.team1_id = some t1s)
    (hs2 : subLookup (upsertSubmission db.submissions mid uid sf sa) mid
      m.team2_id = some t2s)
    (hagree : t1s.score_for = t2s.score_against ∧ t1s.score_against = t2s.score_for)
    (hw : w = if t1s.score_for > t1s.score_against then m.team1_id else m.team2_id)
    (hl : l = if w = m.team1_id then m.team2_id else m.team1_id)
    (ha : a1 = if w = m.team1_id then (1 : Real) else 0)
    (he1 : e1 = newElo1 team1.elo team2.elo a1)
    (he2 : e2 = newElo2 team1.elo team2.elo a1) :
    ∃ db2 : DB,
      submit_score db mid uid sf sa now = some (db2, .matchCompleted) ∧
      findMatchL db2.matchRows mid =
        some { m with
               status := MatchStatus.completed, score1 := some t1s.score_for,
               score2 := some t1s.score_against, winner_id := some w,
               end_time := some now, mismatch_flag := false } ∧
      findTeamL db2.teams m.team1_id =
        some { team1 with
               status := TeamStatus.noMatch, plays := team1.plays + 1,
               wins := team1.wins + (if w = m.team1_id then 1 else 0),
               losses := team1.losses + (if w = m.team1_id then 0 else 1),
               elo := e1 } ∧
      findTeamL db2.teams m.team2_id =
        some { team2 with
               status := TeamStatus.noMatch, plays := team2.plays + 1,
               wins := team2.wins + (if w = m.team1_id then 0 else 1),
               losses := team2.losses + (if w = m.team1_id then 1 else 0),
               elo := e2 } ∧
      db2.elo_history = db.elo_history ++ [⟨m.team1_id, e1⟩, ⟨m.team2_id, e2⟩] ∧
      db2.submissions = upsertSubmission db.submissions mid uid sf sa := by
  have hid : m.id = mid := findMatchL_id hm
  have hmm2 : findMatchL (updateMatches db.matchRows mid
      (fun r => { r with mismatch_flag := false })) mid =
      some { m with mismatch_flag := false } := by
    rw [findMatchL_updateMatches db.matchRows mid
      (fun r => { r with mismatch_flag := false }) (fun r => rfl) mid, hm]
    simp [hid]
  obtain ⟨db2, hfin, hfm, hft1, hft2, hhist, hsubs, htab⟩ :=
    finalize_spec
      { db with
        submissions := upsertSubmission db.submissions mid uid sf sa,
        matchRows := updateMatches db.matchRows mid
          (fun r => { r with mismatch_flag := false }) }
      m ({ m with mismatch_flag := false }) mid now
      t1s.score_for t1s.score_against team1 team2 w l a1 e1 e2
      hne hmm2 ht1 ht2 hw hl ha he1 he2
  refine ⟨db2, ?_, hfm, hft1, hft2, hhist, hsubs⟩
  rw [submit_score_both db mid uid sf sa now m t1s t2s hm hnc hcnt hs1 hs2,
    if_pos hagree]
  exact hfin

/-- Witness for the agreement claim: team 1 submitted (10, 5), team 2
submits (5, 10), and the match completes with score1 = 10, score2 = 5
and team 1 as the winner. -/
theorem submit_score_agreement_finalizes_witness :
    ∃ db2 : DB,
      submit_score wDB1 1 2 5 10 99 = some (db2, .matchCompleted) ∧
      findMatchL db2.matchRows 1 =
        some { wRow1 with
               status := MatchStatus.completed, score1 := some 10,
               score2 := some 5, winner_id := some 1, end_time := some 99,
               mismatch_flag := false } ∧
      findTeamL db2.teams 1 =
        some ⟨1, .noMatch, newElo1 1000 1000 1, 1, 1, 0⟩ ∧
      findTeamL db2.teams 2 =
        some ⟨2, .noMatch, newElo2 1000 1000 1, 1, 0, 1⟩ ∧
      db2.elo_history = [⟨1, newElo1 1000 1000 1⟩, ⟨2, newElo2 1000 1000 1⟩] ∧
      db2.submissions = [⟨1, 1, 10, 5⟩, ⟨1, 2, 5, 10⟩] := by
  obtain ⟨db2, h1, h2, h3, h4, h5, h6⟩ :=
    submit_score_agreement_finalizes wDB1 1 2 5 10 99 wRow1
      ⟨1, .matchActive, 1000, 0, 0, 0⟩ ⟨2, .matchActive, 1000, 0, 0, 0⟩
      ⟨1, 1, 10, 5⟩ ⟨1, 2, 5, 10⟩ 1 2 1 (newElo1 1000 1000 1) (newElo2 1000 1000 1)
      (by decide) (by decide) (by decide) (by decide) (by decide) (by decide)
      (by decide) (by decide) (by decide) (by decide) (by decide)
      (by norm_num [wRow1]) rfl rfl
  exact ⟨db2, h1, h2, h3, h4, h5, h6⟩

/-- C7: when a match between two teams both rated 1000 is finalized by
an agreeing pair of submissions, the Elo update with K = 32 stores
exactly 1016 for the winner and 984 for the loser. -/
theorem submit_score_elo_1000
    (db : DB) (mid uid : Nat) (sf sa now : Int) (m : MatchRow)
    (team1 team2 : Team) (t1s t2s : Submission)
    (w l : Nat) (a1 : ℝ) (e1 e2 : Int)
    (hm : findMatchL db.matchRows mid = some m)
    (hnc : ¬ m.status = .completed)
    (hne : ¬ m.team1_id = m.team2_id)
    (ht1 : findTeamL db.teams m.team1_id = some team1)
    (ht2 : findTeamL db.teams m.team2_id = some team2)
    (hcnt : subTeamCount (upsertSubmission db.submissions mid uid sf sa) mid = 2)
    (hs1 : subLookup (upsertSubmission db.submissions mid uid sf sa) mid
      m.team1_id = some t1s)
    (hs2 : subLookup (upsertSubmission db.submissions mid uid sf sa) mid
      m.team2_id = some t2s)
    (hagree : t1s.score_for = t2s.score_against ∧ t1s.score_against = t2s.score_for)
    (hw : w = if t1s.score_for > t1s.score_against then m.team1_id else m.team2_id)
    (hl : l = if w = m.team1_id then m.team2_id else m.team1_id)
    (ha : a1 = if w = m.team1_id then (1 : Real) else 0)
    (he1 : e1 = newElo1 team1.elo team2.elo a1)
    (he2 : e2 = newElo2 team1.elo team2.elo a1)
    (helo1 : team1.elo = 1000) (helo2 : team2.elo = 1000) :
    ∃ db2 : DB,
      submit_score db mid uid sf sa now = some (db2, .matchCompleted) ∧
      (findTeamL db2.teams w).map Team.elo = some 1016 ∧
      (findTeamL db2.teams l).map Team.elo = some 984 := by
  have hne2 : ¬ m.team2_id = m.team1_id := fun hq => hne hq.symm
  have hid : m.id = mid := findMatchL_id hm
  have hmm2 : findMatchL (updateMatches db.matchRows mid
      (fun r => { r with mismatch_flag := false })) mid =
      some { m with mismatch_flag := false } := by
    rw [findMatchL_updateMatches db.matchRows mid
      (fun r => { r with mismatch_flag := false }) (fun r => rfl) mid, hm]
    simp [hid]
  obtain ⟨db2, hfin, hfm, hft1, hft2, hhist, hsubs, htab⟩ :=
    finalize_spec
      { db with
        submissions := upsertSubmission db.submissions mid uid sf sa,
        matchRows := updateMatches db.matchRows mid
          (fun r => { r with mismatch_flag := false }) }
      m ({ m with mismatch_flag := false }) mid now
      t1s.score_for t1s.score_against team1 team2 w l a1 e1 e2
      hne hmm2 ht1 ht2 hw hl ha he1 he2
  refine ⟨db2, ?_, ?_, ?_⟩
  · rw [submit_score_both db mid uid sf sa now m t1s t2s hm hnc hcnt hs1 hs2,
      if_pos hagree]
    exact hfin
  · by_cases hgt : t1s.score_for > t1s.score_against
    · have hww : w = m.team1_id := by rw [hw, if_pos hgt]
      have ha1 : a1 = 1 := by rw [ha, if_pos hww]
      rw [hww, hft1]
      simp [he1, ha1, helo1, helo2, newElo1_1000_win]
    · have hww : w = m.team2_id := by rw [hw, if_neg hgt]
      have ha1 : a1 = 0 := by
        rw [ha, if_neg]
        rw [hww]
        exact hne2
      rw [hww, hft2]
      simp [he2, ha1, helo1, helo2, newElo2_1000_loss]
  · by_cases hgt : t1s.score_for > t1s.score_against
    · have hww : w = m.team1_id := by rw [hw, if_pos hgt]
      have hll : l = m.team2_id := by rw [hl, if_pos hww]
      have ha1 : a1 = 1 := by rw [ha, if_pos hww]
      rw [hll, hft2]
      simp [he2, ha1, helo1, helo2, newElo2_1000_win]
    · have hww : w = m.team2_id := by rw [hw, if_neg hgt]
      have hwne : ¬ w = m.team1_id := by
        rw [hww]
        exact hne2
      have hll : l = m.team1_id := by rw [hl, if_neg hwne]
      have ha1 : a1 = 0 := by rw [ha, if_neg hwne]
      rw [hll, hft1]
      simp [he1, ha1, helo1, helo2, newElo1_1000_loss]

/-- Witness for the rating claim: both teams start at 1000, team 1
wins 10 to 5, and the stored ratings are 1016 and 984. -/
theorem submit_score_elo_1000_witness :
    ∃ db2 : DB,
      submit_score wDB7 1 2 5 10 99 = some (db2, .matchCompleted) ∧
      (findTeamL db2.teams 1).map Team.elo = some 1016 ∧
      (findTeamL db2.teams 2).map Team.elo = some 984 :=
  submit_score_elo_1000 wDB7 1 2 5 10 99 wRow7
    ⟨1, .matchActive, 1000, 0, 0, 0⟩ ⟨2, .matchActive, 1000, 0, 0, 0⟩
    ⟨1, 1, 10, 5⟩ ⟨1, 2, 5, 10⟩ 1 2 1 (newElo1 1000 1000 1) (newElo2 1000 1000 1)
    (by decide) (by decide) (by decide) (by decide) (by decide) (by decide)
    (by decide) (by decide) (by decide) (by decide) (by decide)
    (by norm_num [wRow7]) rfl rfl (by decide) (by decide)

/-- C10: an agreeing pair of tied submissions (each team claims the
same score for both sides) still completes the match with team 2 as
the winner: there is no draw outcome, team 2 is credited the win and
the winner Elo update while team 1 takes the loss. -/
theorem submit_score_tie_team2_wins
    (db : DB) (mid uid : Nat) (sf sa now : Int) (m : MatchRow)
    (team1 team2 : Team) (t1s t2s : Submission)
    (hm : findMatchL db.matchRows mid = some m)
    (hnc : ¬ m.status = .completed)
    (hne : ¬ m.team1_id = m.team2_id)
    (ht1 : findTeamL db.teams m.team1_id = some team1)
    (ht2 : findTeamL db.teams m.team2_id = some team2)
    (hcnt : subTeamCount (upsertSubmission db.submissions mid uid sf sa) mid = 2)
    (hs1 : subLookup (upsertSubmission db.submissions mid uid sf sa) mid
      m.team1_id = some t1s)
    (hs2 : subLookup (upsertSubmission db.submissions mid uid sf sa) mid
      m.team2_id = some t2s)
    (hagree : t1s.score_for = t2s.score_against ∧ t1s.score_against = t2s.score_for)
    (htie : t1s.score_for = t1s.score_against) :
    ∃ db2 : DB,
      submit_score db mid uid sf sa now = some (db2, .matchCompleted) ∧
      (findMatchL db2.matchRows mid).map MatchRow.winner_id =
        some (some m.team2_id) ∧
      findTeamL db2.teams m.team2_id =
        some { team2 with
               status := TeamStatus.noMatch, plays := team2.plays + 1,
               wins := team2.wins + 1,
               elo := newElo2 team1.elo team2.elo 0 } ∧
      findTeamL db2.teams m.team1_id =
        some { team1 with
               status := TeamStatus.noMatch, plays := team1.plays + 1,
               losses := team1.losses + 1,
               elo := newElo1 team1.elo team2.elo 0 } := by
  have hne2 : ¬ m.team2_id = m.team1_id := fun hq => hne hq.symm
  have hgt : ¬ t1s.score_for > t1s.score_against := by
    rw [htie]
    exact lt_irrefl _
  have hid : m.id = mid := findMatchL_id hm
  have hmm2 : findMatchL (updateMatches db.matchRows mid
      (fun r => { r with mismatch_flag := false })) mid =
      some { m with mismatch_flag := false } := by
    rw [findMatchL_updateMatches db.matchRows mid
      (fun r => { r with mismatch_flag := false }) (fun r => rfl) mid, hm]
    simp [hid]
  obtain ⟨db2, hfin, hfm, hft1, hft2, hhist, hsubs, htab⟩ :=
    finalize_spec
      { db with
        submissions := upsertSubmission db.submissions mid uid sf sa,
        matchRows := updateMatches db.matchRows mid
          (fun r => { r with mismatch_flag := false }) }
      m ({ m with mismatch_flag := false }) mid now
      t1s.score_for t1s.score_against team1 team2
      m.team2_id m.team1_id 0
      (newElo1 team1.elo team2.elo 0) (newElo2 team1.elo team2.elo 0)
      hne hmm2 ht1 ht2 (by rw [if_neg hgt]) (by rw [if_neg hne2])
      (by rw [if_neg hne2]) rfl rfl
  refine ⟨db2, ?_, ?_, ?_, ?_⟩
  · rw [submit_score_both db mid uid sf sa now m t1s t2s hm hnc hcnt hs1 hs2,
      if_pos hagree]
    exact hfin
  · rw [hfm]
    simp
  · rw [hft2]
    simp [hne2]
  · rw [hft1]
    simp [hne2]

/-- Witness for the tie claim: both teams report (7, 7) and team 2 is
declared the winner. -/
theorem submit_score_tie_team2_wins_witness :
    ∃ db2 : DB,
      submit_score wDB10 1 2 7 7 99 = some (db2, .matchCompleted) ∧
      (findMatchL db2.matchRows 1).map MatchRow.winner_id = some (some 2) ∧
      findTeamL db2.teams 2 =
        some ⟨2, .noMatch, newElo2 1000 1000 0, 1, 1, 0⟩ ∧
      findTeamL db2.teams 1 =
        some ⟨1, .noMatch, newElo1 1000 1000 0, 1, 0, 1⟩ := by
  obtain ⟨db2, h1, h2, h3, h4⟩ :=
    submit_score_tie_team2_wins wDB10 1 2 7 7 99 wRow10
      ⟨1, .matchActive, 1000, 0, 0, 0⟩ ⟨2, .matchActive, 1000, 0, 0, 0⟩
      ⟨1, 1, 7, 7⟩ ⟨1, 2, 7, 7⟩
      (by decide) (by decide) (by decide) (by decide) (by decide) (by decide)
      (by decide) (by decide) (by decide) (by decide)
  exact ⟨db2, h1, h2, h3, h4⟩

theorem stateCandidates_spec {db : DB} {uid : Nat} {m : MatchRow}
    (h : m ∈ stateCandidates db uid) :
    m ∈ db.matchRows ∧ (m.team1_id = uid ∨ m.team2_id = uid) ∧
      isOpenStatus m.status = true := by
  unfold stateCandidates at h
  have h2 := List.mem_filter.mp h
  have hb := h2.2
  simp only [Bool.and_eq_true, Bool.or_eq_true, decide_eq_true_eq] at hb
  exact ⟨h2.1, hb.1.1.1, hb.1.1.2⟩

theorem stateCandidates_nil {db : DB} {uid : Nat}
    (h : ∀ m ∈ db.matchRows, (m.team1_id = uid ∨ m.team2_id = uid) →
      isOpenStatus m.status = false) :
    stateCandidates db uid = [] := by
  unfold stateCandidates
  rw [List.filter_eq_nil_iff]
  intro a ha
  simp only [Bool.and_eq_true, Bool.or_eq_true, decide_eq_true_eq]
  rintro ⟨⟨⟨href, hopen⟩, -⟩, -⟩
  rw [h a ha href] at hopen
  exact Bool.false_ne_true hopen

/-- C6: the state reported by get_user_state never claims to be in a
match without a backing open match row, and a stored in-match team
status with no backing row is silently healed to no_match, both in the
report and in the database. -/
theorem get_user_state_consistent
    (db : DB) (uid : Nat) (now : Int) (db1 db2 : DB) (res : UserState)
    (hupd : update_match_progress db now = some db1)
    (h : get_user_state db uid now = some (db2, res)) :
    ((res.state = .matchPending ∨ res.state = .matchActive) →
      ∃ m ∈ db2.matchRows, (m.team1_id = uid ∨ m.team2_id = uid) ∧
        isOpenStatus m.status = true) ∧
    (∀ t : Team, findTeamL db1.teams uid = some t →
      (t.status = .matchPending ∨ t.status = .matchActive) →
      (∀ m ∈ db1.matchRows, (m.team1_id = uid ∨ m.team2_id = uid) →
        isOpenStatus m.status = false) →
      res.state = .noMatch ∧
        ∀ t2 : Team, findTeamL db2.teams uid = some t2 → t2.status = .noMatch) := by
  simp only [get_user_state, hupd] at h
  cases hft : findTeamL db1.teams uid with
  | none =>
    simp only [hft] at h
    rw [if_neg (by simp)] at h
    simp only [Option.some.injEq, Prod.mk.injEq] at h
    obtain ⟨hdb2, hres⟩ := h
    constructor
    · intro hst
      rw [← hres] at hst
      simp at hst
    · intro t ht
      exact Option.noConfusion ht
  | some t0 =>
    simp only [hft] at h
    by_cases hin : t0.status = TeamStatus.matchPending ∨ t0.status = TeamStatus.matchActive
    · rw [if_pos hin] at h
      cases hpick : pickEarliest (stateCandidates db1 uid) with
      | some mm =>
        simp only [hpick, Option.some.injEq, Prod.mk.injEq] at h
        obtain ⟨hdb2, hres⟩ := h
        have hmm := stateCandidates_spec (pickEarliest_mem hpick)
        constructor
        · intro hst
          exact ⟨mm, hdb2 ▸ hmm.1, hmm.2.1, hmm.2.2⟩
        · intro t ht hstat hnone
          exfalso
          rw [hnone mm hmm.1 hmm.2.1] at hmm
          exact Bool.false_ne_true hmm.2.2
      | none =>
        simp only [hpick, Option.some.injEq, Prod.mk.injEq] at h
        obtain ⟨hdb2, hres⟩ := h
        constructor
        · intro hst
          rw [← hres] at hst
          simp at hst
        · intro t ht hstat hnone
          refine ⟨by rw [← hres], ?_⟩
          intro t2 ht2
          rw [← hdb2] at ht2
          have hrw : findTeamL (updateTeams db1.teams (fun tid => decide (tid = uid))
              (fun q => { q with status := TeamStatus.noMatch })) uid =
              (findTeamL db1.teams uid).map fun q =>
                if decide (q.id = uid) then ({ q with status := TeamStatus.noMatch }) else q :=
            findTeamL_updateTeams db1.teams (fun tid => decide (tid = uid))
              (fun q => { q with status := TeamStatus.noMatch }) (fun q => rfl) uid
          rw [hrw, hft] at ht2
          have hid0 : t0.id = uid := findTeamL_id hft
          simp only [Option.map_some', Option.some.injEq] at ht2
          rw [← ht2]
          simp [hid0]
    · rw [if_neg hin] at h
      simp only [Option.some.injEq, Prod.mk.injEq] at h
      obtain ⟨hdb2, hres⟩ := h
      constructor
      · intro hst
        rw [← hres] at hst
        exact absurd hst hin
      · intro t ht hstat
        have heq0 : t0 = t := (Option.some.injEq _ _).mp ht
        exact absurd (heq0 ▸ hstat) hin

/-- Witness for the self-healing claim at a concrete database: the
team record says match_pending but no match row exists, and the call
reports no_match. -/
theorem get_user_state_consistent_witness :
    ∃ (db1 db2 : DB) (res : UserState),
      update_match_progress wDB6 0 = some db1 ∧
      get_user_state wDB6 1 0 = some (db2, res) ∧
      (((res.state = .matchPending ∨ res.state = .matchActive) →
        ∃ m ∈ db2.matchRows, (m.team1_id = 1 ∨ m.team2_id = 1) ∧
          isOpenStatus m.status = true) ∧
      (∀ t : Team, findTeamL db1.teams 1 = some t →
        (t.status = .matchPending ∨ t.status = .matchActive) →
        (∀ m ∈ db1.matchRows, (m.team1_id = 1 ∨ m.team2_id = 1) →
          isOpenStatus m.status = false) →
        res.state = .noMatch ∧
          ∀ t2 : Team, findTeamL db2.teams 1 = some t2 → t2.status = .noMatch)) := by
  have h1 : (update_match_progress wDB6 0).isSome = true := by decide
  have h2 : (get_user_state wDB6 1 0).isSome = true := by decide
  refine ⟨(update_match_progress wDB6 0).get h1,
    ((get_user_state wDB6 1 0).get h2).1,
    ((get_user_state wDB6 1 0).get h2).2,
    (Option.some_get h1).symm, (Option.some_get h2).symm, ?_⟩
  exact get_user_state_consistent wDB6 1 0 _ _ _
    (Option.some_get h1).symm (Option.some_get h2).symm

/-- C5: for any match in status ready_check whose scheduled_start is
set, running the deadline evaluator strictly later than
scheduled_start + READY_TIMEOUT (5 minutes) forces the match to
active regardless of the ready flags, sets timer_start to now, and
moves both participating teams to match_active. -/
theorem update_forces_active
    (db db2 : DB) (now ss : Int) (m : MatchRow)
    (hmem : m ∈ db.matchRows)
    (hst : m.status = .readyCheck)
    (hss : m.scheduled_start = some ss)
    (hlate : now > ss + minutes READY_CHECK_TIMEOUT_MINUTES)
    (hupd : update_match_progress db now = some db2) :
    (∀ r ∈ db2.matchRows, r.id = m.id → r.status = .active ∧ r.timer_start = some now) ∧
    (∀ t ∈ db2.teams, (t.id = m.team1_id ∨ t.id = m.team2_id) →
      t.status = .matchActive) := by
  simp only [update_match_progress] at hupd
  have hr1 : m ∈ ((db.matchRows.filter fun q =>
      decide (q.status = .pending) && q.scheduled_start.isSome).foldl
        (pass1Step now) db).matchRows :=
    pass1_fold_preserves_ready now _ db m hst hmem
  have hsnap : m ∈ ((db.matchRows.filter fun q =>
      decide (q.status = .pending) && q.scheduled_start.isSome).foldl
        (pass1Step now) db).matchRows.filter
          fun q => decide (q.status = .readyCheck) :=
    List.mem_filter.mpr ⟨hr1, by simp [hst]⟩
  obtain ⟨l1, l2, hsplit⟩ := List.append_of_mem hsnap
  rw [hsplit] at hupd
  obtain ⟨b1, b2, hf1, hstep, hf2⟩ := foldlM_option_split _ l1 l2 m _ db2 hupd
  have hPQ := pass2Step_establish now b1 m ss b2 hss hlate hstep
  exact foldlM_option_invariant
    (fun d => (∀ r ∈ d.matchRows, r.id = m.id →
        r.status = .active ∧ r.timer_start = some now) ∧
      (∀ t ∈ d.teams, (t.id = m.team1_id ∨ t.id = m.team2_id) →
        t.status = .matchActive))
    (pass2Step now)
    (fun b a b3 hb hPb => pass2Step_preserves now b b3 a m.id m.team1_id m.team2_id
      hb hPb.1 hPb.2)
    l2 b2 db2 hf2 hPQ

/-- Witness for the forced-start claim at a concrete database. -/
theorem update_forces_active_witness :
    ∃ db2 : DB, update_match_progress wDB5 301 = some db2 ∧
      (∀ r ∈ db2.matchRows, r.id = 1 → r.status = .active ∧ r.timer_start = some 301) ∧
      (∀ t ∈ db2.teams, (t.id = 1 ∨ t.id = 2) → t.status = .matchActive) := by
  have hs : (update_match_progress wDB5 301).isSome = true := by decide
  refine ⟨(update_match_progress wDB5 301).get hs, (Option.some_get hs).symm, ?_⟩
  exact update_forces_active wDB5 ((update_match_progress wDB5 301).get hs) 301 0
    wRow5 (by decide) (by decide) (by decide) (by decide) (Option.some_get hs).symm

/-- Witness for the amended C8 theorem at a concrete database. -/
theorem set_ready_active_only_sets_flag_witness :
    ∃ db2 : DB,
      set_ready wDB8 1 2 99 = (db2, true) ∧
      db2.teams = wDB8.teams ∧
      db2.submissions = wDB8.submissions ∧
      db2.elo_history = wDB8.elo_history ∧
      db2.tables = wDB8.tables ∧
      findMatchL db2.matchRows 1 =
        some (if 2 = wRow8.team1_id then { wRow8 with team1_ready := true }
              else { wRow8 with team2_ready := true }) :=
  set_ready_active_only_sets_flag wDB8 1 2 99 wRow8
    (by decide) (by decide) (by decide) (by decide)

end Bir
